import Mathlib

/-!
Verification of the pyani ANIm orchestration core.

This file gives a shallow embedding of the code in
`pyani/pyani_db.py` (the SQLite schema `SQL_CREATEDB` and `create_db`)
and of the orchestrator `subcmd_anim` in `pyani/scripts/subcommands.py`:
run planning, the memoization filter, recovery-mode job construction,
the scheduler hand-off, and the result-ingestion loop.

Database tables are modelled as lists of rows (or, where only table
presence and row counts matter, as association lists from table name to
row count), with insertion behaviour derived from the constraints the
schema actually declares.  Python float arithmetic in the ingestion loop
is idealised as rational arithmetic; Python division raising
ZeroDivisionError on a zero denominator is modelled explicitly.
-/

namespace Pyani

/-! ## The SQLite schema: SQL_CREATEDB (pyani_db.py, lines 85-116) -/

/-- Columns of the genomes table. -/
def genomes_columns : List String :=
  ["genome_id", "hash", "path", "description"]

/-- Uniqueness constraints declared on the genomes table: only the
integer primary key genome_id; in particular, no constraint mentions
(hash, path). -/
def genomes_unique_constraints : List (List String) :=
  [["genome_id"]]

/-- Columns of the runs table. -/
def runs_columns : List String :=
  ["run_id", "method", "cmdline", "date"]

/-- Columns of the runs_genomes link table. -/
def runs_genomes_columns : List String :=
  ["run_id", "genome_id"]

/-- Columns of the comparisons table. -/
def comparisons_columns : List String :=
  ["query_id", "subject_id", "identity", "coverage",
   "mismatches", "aligned_length"]

/-- Declared primary key of the comparisons table. -/
def comparisons_primary_key : List String :=
  ["query_id", "subject_id"]

/-- A row of the genomes table, exactly the columns of SQL_CREATEDB. -/
structure GenomesRow where
  genome_id : Nat
  hash : String
  path : String
  description : String
deriving DecidableEq

/-- The genomes table together with its autoincrement counter. -/
structure GenomesTable where
  rows : List GenomesRow
  seq : Nat
deriving DecidableEq

/-- add_genome is absent from src; its effect is determined by the
genomes table of SQL_CREATEDB: an INSERT of the data columns.  The
schema declares no uniqueness constraint on (hash, path), so every
insertion succeeds and is assigned a fresh autoincrement identifier. -/
def add_genome (t : GenomesTable) (h p d : String) : GenomesTable × Nat :=
  let gid := t.seq + 1
  (⟨t.rows ++ [⟨gid, h, p, d⟩], gid⟩, gid)

/-- get_genome is absent from src; determined by the schema: SELECT the
rows matching the given hash and path. -/
def get_genome (t : GenomesTable) (h p : String) : List GenomesRow :=
  t.rows.filter (fun r => r.hash == h && r.path == p)

/-- The genome-registration step of subcmd_anim (subcommands.py, lines
427-443): add_genome is attempted and a sqlite3.IntegrityError would be
recovered by re-reading the existing row; under the schema of
SQL_CREATEDB no uniqueness constraint involves (hash, path), so the
insertion always succeeds and the recovery branch is unreachable. -/
def register_genome (t : GenomesTable) (h p d : String) : GenomesTable × Nat :=
  add_genome t h p d

/-- A row of the comparisons table, exactly the columns of SQL_CREATEDB. -/
structure ComparisonsRow where
  query_id : Nat
  subject_id : Nat
  identity : ℚ
  coverage : ℚ
  mismatches : ℚ
  aligned_length : ℚ
deriving DecidableEq

/-- INSERT into the comparisons table: the declared PRIMARY KEY is
(query_id, subject_id), so an insertion whose pair of identifiers is
already present fails with a uniqueness violation, whatever tool,
version or parameters produced either row (the table has no columns for
them). -/
def comparisons_insert (t : List ComparisonsRow) (r : ComparisonsRow) :
    Except String (List ComparisonsRow) :=
  if t.any (fun x => x.query_id == r.query_id && x.subject_id == r.subject_id)
  then Except.error "UNIQUE constraint failed: comparisons.query_id, comparisons.subject_id"
  else Except.ok (t ++ [r])

/-- The arguments subcmd_anim passes to add_run (subcommands.py, lines
403-404): method name, command line, timestamp, a status value, and the
display name of the analysis. -/
structure AddRunCall where
  method : String
  cmdline : String
  date : String
  status : String
  name : String
deriving DecidableEq

/-- The add_run call made by subcmd_anim: method ANIm, the command line,
the start timestamp, the literal status value started, and the run name. -/
def subcmd_anim_add_run (cmdline start_time nm : String) : AddRunCall :=
  ⟨"ANIm", cmdline, start_time, "started", nm⟩

/-! ## create_db (pyani_db.py, lines 119-126)

For claims about which tables exist and whether they are empty, a
database is modelled as an association list from table name to the
number of stored rows. -/

/-- The four tables SQL_CREATEDB manages. -/
def pyani_tables : List String :=
  ["genomes", "runs", "runs_genomes", "comparisons"]

/-- DROP TABLE IF EXISTS: remove the named table, if present. -/
def drop_table_if_exists (db : List (String × Nat)) (t : String) :
    List (String × Nat) :=
  db.filter (fun e => !(e.1 == t))

/-- CREATE TABLE: add the named table, empty. -/
def create_table (db : List (String × Nat)) (t : String) :
    List (String × Nat) :=
  db ++ [(t, 0)]

/-- The SQL_CREATEDB script, in script order: drop and recreate each of
genomes, runs, runs_genomes and comparisons. -/
def sql_createdb (db : List (String × Nat)) : List (String × Nat) :=
  let db1 := create_table (drop_table_if_exists db "genomes") "genomes"
  let db2 := create_table (drop_table_if_exists db1 "runs") "runs"
  let db3 := create_table (drop_table_if_exists db2 "runs_genomes") "runs_genomes"
  create_table (drop_table_if_exists db3 "comparisons") "comparisons"

/-- create_db: connect to the database at the given path (whatever its
current contents) and execute SQL_CREATEDB. -/
def create_db (db : List (String × Nat)) : List (String × Nat) :=
  sql_createdb db

/-! ## subcmd_anim: run planning (subcommands.py, lines 483-535)

The store-lookup get_comparison and the link insertion
add_comparison_link are absent from src; the lookup is passed in as a
map from a genome-id pair to the optional stored comparison identifier,
fixed for the run since subcmd_anim always queries with the same tool
name, nucmer version and maxmatch setting. -/

/-- itertools.combinations of a list taken two at a time, as used at
subcommands.py line 486 to enumerate all unordered genome pairs. -/
def combinations2 : List Nat → List (Nat × Nat)
  | [] => []
  | x :: xs => xs.map (fun y => (x, y)) ++ combinations2 xs

/-- Pairs of the planned comparison list whose result is already
memoized in the store (subcommands.py, lines 497-501). -/
def new_link_ids (memo : Nat → Nat → Option Nat)
    (cids : List (Nat × Nat)) : List (Nat × Nat) :=
  cids.filter (fun p => (memo p.1 p.2).isSome)

/-- Modelled from the spec: add_comparison_link and the run-comparison
link table are absent from src (SQL_CREATEDB declares no such table);
per section 4.3 a link insertion associates the run with the stored
comparison key, so the loop at subcommands.py lines 504-508 is recorded
as the list of (run, pair) link insertions it performs. -/
def links_added (run : Nat) (memo : Nat → Nat → Option Nat)
    (cids : List (Nat × Nat)) : List (Nat × (Nat × Nat)) :=
  (new_link_ids memo cids).map (fun p => (run, p))

/-- Comparisons still to be performed: the planned pairs whose result is
not memoized in the store (subcommands.py, lines 530-533). -/
def comparisons_to_run (memo : Nat → Nat → Option Nat)
    (cids : List (Nat × Nat)) : List (Nat × Nat) :=
  cids.filter (fun p => (memo p.1 p.2).isNone)

/-! ## subcmd_anim: job construction (subcommands.py, lines 537-579) -/

/-- The stage of a built job: the NUCmer alignment job or the
delta-filter job. -/
inductive JobKind where
  | nuc
  | filt
deriving DecidableEq

/-- The name of a built job.  In the source it is the string
jobprefix_idx-n or jobprefix_idx-f; the rendering is injective in the
pair of the loop index and the stage, which is what the model keeps. -/
structure JobName where
  idx : Nat
  kind : JobKind
deriving DecidableEq

/-- A pyani_jobs.Job as built by subcmd_anim: a name, the command to
run, and the names of the jobs it depends on. -/
structure JobNode where
  name : JobName
  script : String
  deps : List JobName
deriving DecidableEq

/-- The Comparison named tuple of subcommands.py line 70: the genome
pair, the filter command line, and the expected output artifact. -/
structure Comparison where
  query_id : Nat
  subject_id : Nat
  cmdline : String
  outfile : String
deriving DecidableEq

/-- The NUCmer output suffix chosen at subcommands.py lines 556-559 and
519-522: delta when filtering is disabled, filter otherwise. -/
def out_suffix (nofilter : Bool) : String :=
  if nofilter then ".delta" else ".filter"

/-- Result of the job-construction loop: the ingestion (comparisons)
list, the align/filter job pair built for each non-recovered pair, and
the joblist handed to the scheduler. -/
structure BuildOut where
  comparisons : List Comparison
  built : List ((Nat × Nat) × JobNode × JobNode)
  joblist : List JobNode
deriving DecidableEq

/-- The job-construction loop of subcmd_anim (subcommands.py, lines
544-579).  stem gives the NUCmer output stem for a pair (derived in the
source from construct_nucmer_cmdline, which is absent from src), cmds
the (nucmer, delta-filter) command pair, and existing the artifact file
names present in the output directory (lines 519-525).  Every pair is
appended to the comparisons list; when recovery mode is on and the
expected artifact of a pair is already present, no job is built for it;
otherwise a NUCmer job and a filter job depending on it are built and
the filter job is appended to the joblist. -/
def build_jobs (recovery nofilter : Bool) (existing : List String)
    (stem : Nat × Nat → String) (cmds : Nat × Nat → String × String) :
    Nat → List (Nat × Nat) → BuildOut
  | _, [] => ⟨[], [], []⟩
  | idx, p :: ps =>
    let rest := build_jobs recovery nofilter existing stem cmds (idx + 1) ps
    let outfname := stem p ++ out_suffix nofilter
    let comp : Comparison := ⟨p.1, p.2, (cmds p).2, outfname⟩
    if recovery && existing.contains outfname then
      ⟨comp :: rest.comparisons, rest.built, rest.joblist⟩
    else
      let njob : JobNode := ⟨⟨idx, JobKind.nuc⟩, (cmds p).1, []⟩
      let fjob : JobNode := ⟨⟨idx, JobKind.filt⟩, (cmds p).2, [⟨idx, JobKind.nuc⟩]⟩
      ⟨comp :: rest.comparisons, (p, njob, fjob) :: rest.built, fjob :: rest.joblist⟩

/-- All job objects constructed by the loop: the align and filter job of
every non-recovered pair. -/
def all_built : List ((Nat × Nat) × JobNode × JobNode) → List JobNode
  | [] => []
  | e :: es => e.2.1 :: e.2.2 :: all_built es

/-- Dependency edge of the built job graph: a points at b when some
built job named a lists b among its dependencies. -/
def has_edge (jobs : List JobNode) (a b : JobName) : Prop :=
  ∃ j ∈ jobs, j.name = a ∧ b ∈ j.deps

/-- Acyclicity of the built job graph: no name reaches itself through
one or more dependency edges. -/
def Acyclic (jobs : List JobNode) : Prop :=
  ∀ a, ¬ Relation.TransGen (has_edge jobs) a a

/-- Modelled from the spec: the scheduler execution semantics of
run_mp.run_dependency_graph and pyani_jobs are absent from src; per
section 4.5 a job executes only when each of its dependencies has
executed and succeeded (a filter job cannot run if its align job did not
succeed).  ok records which executed jobs succeed. -/
inductive Executes (jobs : List JobNode) (ok : JobName → Bool) : JobName → Prop
  | step (j : JobNode) (hj : j ∈ jobs)
      (hexec : ∀ d ∈ j.deps, Executes jobs ok d)
      (hok : ∀ d ∈ j.deps, ok d = true) :
      Executes jobs ok j.name

/-! ## subcmd_anim: scheduling outcome and result ingestion
(subcommands.py, lines 581-630) -/

/-- Python true division: raises ZeroDivisionError when the denominator
is zero. -/
def pydiv (a b : ℚ) : Except String ℚ :=
  if b = 0 then Except.error "ZeroDivisionError" else Except.ok (a / b)

/-- The data committed for one pair by add_comparison (absent from src):
the arguments of the call at subcommands.py lines 619-623. -/
structure CommittedComparison where
  query_id : Nat
  subject_id : Nat
  aln_length : Nat
  sim_errs : Nat
  pid : ℚ
  qcov : ℚ
  scov : ℚ
deriving DecidableEq

/-- One iteration of the result-ingestion loop (subcommands.py, lines
612-623): parse the artifact into an aligned length and an error count,
look up the genome lengths, and derive the coverages and the percentage
identity exactly as written there, in the same order of division. -/
def ingest_step (lens : Nat → Nat) (parse : String → Nat × Nat)
    (c : Comparison) : Except String CommittedComparison :=
  let al := (parse c.outfile).1
  let se := (parse c.outfile).2
  let qlen := lens c.query_id
  let slen := lens c.subject_id
  do
    let qcov ← pydiv (al : ℚ) (qlen : ℚ)
    let scov ← pydiv (al : ℚ) (slen : ℚ)
    let e ← pydiv (se : ℚ) (al : ℚ)
    Except.ok ⟨c.query_id, c.subject_id, al, se, 1 - e, qcov, scov⟩

/-- The result-ingestion loop over the whole batch: each successfully
parsed pair is committed before the next is processed; an exception
aborts the loop, leaving the earlier commits in place and every later
pair unprocessed.  Returns the committed rows and the raised exception,
if any. -/
def ingest_all (lens : Nat → Nat) (parse : String → Nat × Nat) :
    List Comparison → List CommittedComparison × Option String
  | [] => ([], none)
  | c :: cs =>
    match ingest_step lens parse c with
    | Except.error e => ([], some e)
    | Except.ok row =>
      let rest := ingest_all lens parse cs
      (row :: rest.1, rest.2)

/-- The multiprocessing branch after the scheduler returns, followed by
the ingestion loop (subcommands.py, lines 590-599 and 608-630): a
positive cumulative failure value raises PyaniException at line 596,
before any result is ingested; otherwise every comparison of the batch
is ingested. -/
def anim_post_schedule (cumval : Nat) (lens : Nat → Nat)
    (parse : String → Nat × Nat) (comps : List Comparison) :
    List CommittedComparison × Option String :=
  if 0 < cumval then ([], some "Multiprocessing run failed in ANIm")
  else ingest_all lens parse comps

/-! ## Supporting lemmas -/

lemma build_jobs_built_mem (recovery nofilter : Bool) (existing : List String)
    (stem : Nat × Nat → String) (cmds : Nat × Nat → String × String)
    (i : Nat) (ps : List (Nat × Nat)) :
    ∀ e ∈ (build_jobs recovery nofilter existing stem cmds i ps).built,
      e.1 ∈ ps := by
  induction ps generalizing i with
  | nil => intro e he; simp [build_jobs] at he
  | cons p pt ih =>
    intro e he
    simp only [build_jobs] at he
    split at he
    · exact List.mem_cons_of_mem _ (ih _ e he)
    · rcases List.mem_cons.mp he with h | h
      · subst h; exact List.mem_cons_self _ _
      · exact List.mem_cons_of_mem _ (ih _ e h)

lemma build_jobs_built_shape (recovery nofilter : Bool) (existing : List String)
    (stem : Nat × Nat → String) (cmds : Nat × Nat → String × String)
    (i : Nat) (ps : List (Nat × Nat)) :
    ∀ e ∈ (build_jobs recovery nofilter existing stem cmds i ps).built,
      ∃ k, e.2.1 = ⟨⟨k, JobKind.nuc⟩, (cmds e.1).1, []⟩ ∧
           e.2.2 = ⟨⟨k, JobKind.filt⟩, (cmds e.1).2, [⟨k, JobKind.nuc⟩]⟩ := by
  induction ps generalizing i with
  | nil => intro e he; simp [build_jobs] at he
  | cons p pt ih =>
    intro e he
    simp only [build_jobs] at he
    split at he
    · exact ih _ e he
    · rcases List.mem_cons.mp he with h | h
      · subst h; exact ⟨i, rfl, rfl⟩
      · exact ih _ e h

lemma mem_all_built {l : List ((Nat × Nat) × JobNode × JobNode)} {j : JobNode} :
    j ∈ all_built l ↔ ∃ e ∈ l, j = e.2.1 ∨ j = e.2.2 := by
  induction l with
  | nil => simp [all_built]
  | cons e es ih =>
    simp only [all_built, List.mem_cons, ih]
    constructor
    · rintro (h | h | ⟨x, hx, hj⟩)
      · exact ⟨e, Or.inl rfl, Or.inl h⟩
      · exact ⟨e, Or.inl rfl, Or.inr h⟩
      · exact ⟨x, Or.inr hx, hj⟩
    · rintro ⟨x, hx | hx, hj⟩
      · subst hx; tauto
      · exact Or.inr (Or.inr ⟨x, hx, hj⟩)

lemma all_built_classify (recovery nofilter : Bool) (existing : List String)
    (stem : Nat × Nat → String) (cmds : Nat × Nat → String × String)
    (i : Nat) (ps : List (Nat × Nat)) :
    ∀ j ∈ all_built (build_jobs recovery nofilter existing stem cmds i ps).built,
      (j.name.kind = JobKind.nuc ∧ j.deps = []) ∨
      (j.name.kind = JobKind.filt ∧ j.deps = [⟨j.name.idx, JobKind.nuc⟩]) := by
  intro j hj
  rcases mem_all_built.mp hj with ⟨e, he, hcase⟩
  rcases build_jobs_built_shape recovery nofilter existing stem cmds i ps e he
    with ⟨k, hn, hf⟩
  rcases hcase with h | h
  · subst h; rw [hn]; exact Or.inl ⟨rfl, rfl⟩
  · subst h; rw [hf]; exact Or.inr ⟨rfl, rfl⟩

lemma edge_kinds {jobs : List JobNode}
    (hclass : ∀ j ∈ jobs,
      (j.name.kind = JobKind.nuc ∧ j.deps = []) ∨
      (j.name.kind = JobKind.filt ∧ j.deps = [⟨j.name.idx, JobKind.nuc⟩]))
    {a b : JobName} (h : has_edge jobs a b) :
    a.kind = JobKind.filt ∧ b.kind = JobKind.nuc := by
  rcases h with ⟨j, hj, hname, hdep⟩
  rcases hclass j hj with ⟨_, hd⟩ | ⟨hk, hd⟩
  · rw [hd] at hdep; simp at hdep
  · rw [hd] at hdep
    rcases List.mem_singleton.mp hdep with rfl
    exact ⟨hname ▸ hk, rfl⟩

lemma acyclic_of_classify {jobs : List JobNode}
    (hclass : ∀ j ∈ jobs,
      (j.name.kind = JobKind.nuc ∧ j.deps = []) ∨
      (j.name.kind = JobKind.filt ∧ j.deps = [⟨j.name.idx, JobKind.nuc⟩])) :
    Acyclic jobs := by
  intro a ha
  rcases Relation.TransGen.head'_iff.mp ha with ⟨b, hab, hba⟩
  have hbnuc : b.kind = JobKind.nuc := (edge_kinds hclass hab).2
  rcases Relation.ReflTransGen.cases_head hba with heq | ⟨c, hbc, _⟩
  · have hafilt : a.kind = JobKind.filt := (edge_kinds hclass hab).1
    subst heq
    rw [hafilt] at hbnuc
    simp at hbnuc
  · have hbfilt : b.kind = JobKind.filt := (edge_kinds hclass hbc).1
    rw [hbfilt] at hbnuc
    simp at hbnuc

lemma ingest_step_zero (lens : Nat → Nat) (parse : String → Nat × Nat)
    (c : Comparison) (h : (parse c.outfile).1 = 0) :
    ingest_step lens parse c = Except.error "ZeroDivisionError" := by
  simp only [ingest_step, h, Nat.cast_zero]
  by_cases hq : ((lens c.query_id : ℚ)) = 0
  · simp [pydiv, hq, Except.instMonad, Except.bind]
  · by_cases hs : ((lens c.subject_id : ℚ)) = 0
    · simp [pydiv, hq, hs, Except.instMonad, Except.bind]
    · simp [pydiv, hq, hs, Except.instMonad, Except.bind]

lemma ingest_all_append (lens : Nat → Nat) (parse : String → Nat × Nat)
    (pre l : List Comparison)
    (h : (ingest_all lens parse pre).2 = none) :
    ingest_all lens parse (pre ++ l) =
      ((ingest_all lens parse pre).1 ++ (ingest_all lens parse l).1,
       (ingest_all lens parse l).2) := by
  induction pre with
  | nil => simp [ingest_all]
  | cons c cs ih =>
    cases hs : ingest_step lens parse c with
    | error e =>
      exfalso
      simp only [ingest_all, hs] at h
      exact Option.noConfusion h
    | ok row =>
      have h2 : (ingest_all lens parse cs).2 = none := by
        simp only [ingest_all, hs] at h
        exact h
      simp only [List.cons_append, ingest_all, hs, List.append_eq]
      rw [ih h2]

lemma create_db_eq (db : List (String × Nat)) :
    create_db db =
      ((((db.filter (fun e => !(e.1 == "genomes"))).filter
          (fun e => !(e.1 == "runs"))).filter
          (fun e => !(e.1 == "runs_genomes"))).filter
          (fun e => !(e.1 == "comparisons"))) ++
      [("genomes", 0), ("runs", 0), ("runs_genomes", 0), ("comparisons", 0)] := by
  simp only [create_db, sql_createdb, create_table, drop_table_if_exists,
    List.filter_append]
  simp

lemma mem_create_db {db : List (String × Nat)} {e : String × Nat} :
    e ∈ create_db db ↔
      (e ∈ db ∧ e.1 ≠ "genomes" ∧ e.1 ≠ "runs" ∧
        e.1 ≠ "runs_genomes" ∧ e.1 ≠ "comparisons") ∨
      e = ("genomes", 0) ∨ e = ("runs", 0) ∨
      e = ("runs_genomes", 0) ∨ e = ("comparisons", 0) := by
  rw [create_db_eq]
  simp only [List.mem_append, List.mem_filter, List.mem_cons,
    List.not_mem_nil, or_false, Bool.not_eq_true', beq_eq_false_iff_ne, ne_eq]
  tauto

/-! ## Claim theorems -/

/-- Claim C3 (code_bug evidence): the comparison store does not enforce
uniqueness on the five-part key (item A, item B, tool name, tool
version, parameter signature).  The comparisons table of SQL_CREATEDB
has no column at all for the tool name, tool version or parameters, and
its declared primary key is the two-part (query_id, subject_id); hence
two comparisons of the same pair produced by different tool versions
cannot coexist: the second insertion fails even though the five-part
keys differ. -/
theorem comparisons_key_pairwise_only_bug :
    comparisons_primary_key = ["query_id", "subject_id"] ∧
    "program" ∉ comparisons_columns ∧
    "version" ∉ comparisons_columns ∧
    "fragsize" ∉ comparisons_columns ∧
    "maxmatch" ∉ comparisons_columns ∧
    comparisons_insert [⟨1, 2, 1, 1, 0, 100⟩] ⟨1, 2, 1, 1, 0, 200⟩ =
      Except.error
        "UNIQUE constraint failed: comparisons.query_id, comparisons.subject_id" := by
  refine ⟨rfl, ?_, ?_, ?_, ?_, rfl⟩ <;> decide

/-- Claim C4 (code_bug evidence): genome registration is not idempotent
under the schema of SQL_CREATEDB.  The genomes table declares no
uniqueness constraint on (hash, path), so registering the same
(hash, path) twice raises no IntegrityError, inserts a duplicate row,
and returns two different identifiers — the recovery branch of
subcmd_anim (subcommands.py, lines 430-443), which assumes at most one
row per (hash, path), is unreachable. -/
theorem genome_registration_duplicate_rows_bug :
    ["hash", "path"] ∉ genomes_unique_constraints ∧
    (register_genome ⟨[], 0⟩ "abc123" "/data/g1.fna" "genome one").2 = 1 ∧
    (register_genome
      (register_genome ⟨[], 0⟩ "abc123" "/data/g1.fna" "genome one").1
      "abc123" "/data/g1.fna" "genome one").2 = 2 ∧
    (get_genome
      (register_genome
        (register_genome ⟨[], 0⟩ "abc123" "/data/g1.fna" "genome one").1
        "abc123" "/data/g1.fna" "genome one").1
      "abc123" "/data/g1.fna").length = 2 := by
  refine ⟨?_, rfl, rfl, ?_⟩ <;> decide

/-- Claim C9 (code_bug evidence): subcmd_anim calls add_run with a
status value equal to the literal started and with the display name of
the run (subcommands.py, lines 403-404), but the runs table of
SQL_CREATEDB has only the columns run_id, method, cmdline and date — no
status column and no name column — so the created run row cannot carry
either value. -/
theorem run_row_lacks_status_name_bug (cl ts nm : String) :
    (subcmd_anim_add_run cl ts nm).status = "started" ∧
    (subcmd_anim_add_run cl ts nm).method = "ANIm" ∧
    runs_columns = ["run_id", "method", "cmdline", "date"] ∧
    "status" ∉ runs_columns ∧
    "name" ∉ runs_columns := by
  refine ⟨rfl, rfl, rfl, ?_, ?_⟩ <;> decide

/-- Claim C10 counterexample: create_db does not leave the database with
exactly the four managed tables.  On a database holding a table named
extra with three rows, the table and its rows survive create_db
untouched, so the resulting database has five tables, not four. -/
theorem create_db_extra_table_cx :
    ("extra", 3) ∈ create_db [("extra", 3)] ∧
    (create_db [("extra", 3)]).map Prod.fst ≠
      ["genomes", "runs", "runs_genomes", "comparisons"] := by
  decide

/-- Claim C10 as amended: create_db drops any pre-existing genomes,
runs, runs_genomes and comparisons tables and recreates them empty, so
every previously memoized item, run, link and comparison row is erased;
tables under any other name are preserved with their rows, and the
database ends with exactly the four managed tables only when it
contained no others. -/
theorem create_db_resets_tables (db : List (String × Nat)) :
    ("genomes", 0) ∈ create_db db ∧ ("runs", 0) ∈ create_db db ∧
    ("runs_genomes", 0) ∈ create_db db ∧ ("comparisons", 0) ∈ create_db db ∧
    (∀ e ∈ create_db db, e.1 ∈ pyani_tables → e.2 = 0) ∧
    (∀ e ∈ db, e.1 ∉ pyani_tables → e ∈ create_db db) ∧
    (∀ e ∈ create_db db, e.1 ∈ pyani_tables ∨ e ∈ db) ∧
    ((∀ e ∈ db, e.1 ∈ pyani_tables) →
      (create_db db).map Prod.fst = pyani_tables) := by
  refine ⟨?_, ?_, ?_, ?_, ?_, ?_, ?_, ?_⟩
  · exact mem_create_db.mpr (Or.inr (Or.inl rfl))
  · exact mem_create_db.mpr (Or.inr (Or.inr (Or.inl rfl)))
  · exact mem_create_db.mpr (Or.inr (Or.inr (Or.inr (Or.inl rfl))))
  · exact mem_create_db.mpr (Or.inr (Or.inr (Or.inr (Or.inr rfl))))
  · intro e he _
    rcases mem_create_db.mp he with ⟨_, h1, h2, h3, h4⟩ | h | h | h | h
    · simp only [pyani_tables, List.mem_cons, List.mem_singleton] at *
      tauto
    all_goals (subst h; rfl)
  · intro e he hn
    simp only [pyani_tables, List.mem_cons, List.mem_singleton] at hn
    push_neg at hn
    exact mem_create_db.mpr (Or.inl ⟨he, hn.1, hn.2.1, hn.2.2.1, by simpa using hn.2.2.2⟩)
  · intro e he
    rcases mem_create_db.mp he with ⟨h, _⟩ | h | h | h | h
    · exact Or.inr h
    all_goals (subst h; exact Or.inl (by decide))
  · intro hall
    have hnil : (((db.filter (fun e => !(e.1 == "genomes"))).filter
        (fun e => !(e.1 == "runs"))).filter
        (fun e => !(e.1 == "runs_genomes"))).filter
        (fun e => !(e.1 == "comparisons")) = [] := by
      rw [List.eq_nil_iff_forall_not_mem]
      intro a ha
      have h4 := List.mem_filter.mp ha
      have h3 := List.mem_filter.mp h4.1
      have h2 := List.mem_filter.mp h3.1
      have h1 := List.mem_filter.mp h2.1
      have hmem := hall a h1.1
      simp only [pyani_tables, List.mem_cons, List.not_mem_nil, or_false] at hmem
      rcases hmem with h | h | h | h
      · have := h1.2; simp [h] at this
      · have := h2.2; simp [h] at this
      · have := h3.2; simp [h] at this
      · have := h4.2; simp [h] at this
    rw [create_db_eq, hnil]
    rfl

/-- Claim C10 witness for the amended statement, at a database holding a
previous run with stored rows in all four tables. -/
theorem create_db_resets_tables_witness :
    (create_db [("genomes", 7), ("comparisons", 21)]).map Prod.fst = pyani_tables :=
  (create_db_resets_tables [("genomes", 7), ("comparisons", 21)]).2.2.2.2.2.2.2
    (by decide)

/-- Claim C5 counterexample: when the scheduler reports a failure, no
comparison of the batch is committed, not even for a pair whose own
computation succeeded.  Here one job failed (cumulative value 1) while
the pair (1, 2) has a perfectly healthy artifact (aligned length 4, one
error); the invocation raises PyaniException at subcommands.py line 596,
before the ingestion loop, so the committed list is empty — the claim
that successfully completed pairs remain committed fails. -/
theorem scheduler_failure_commits_nothing_cx :
    anim_post_schedule 1 (fun g => g + 3) (fun _ => (4, 1))
      [⟨1, 2, "dcmd", "o.filter"⟩] =
      ([], some "Multiprocessing run failed in ANIm") := rfl

/-- Claim C5 as amended: if the multiprocessing scheduler reports one or
more failed jobs, the invocation raises PyaniException and is reported
failed, and no comparison result of the batch is committed by this
invocation — the ingestion loop never runs. -/
theorem scheduler_failure_aborts_before_ingest (cumval : Nat)
    (lens : Nat → Nat) (parse : String → Nat × Nat)
    (comps : List Comparison) (h : 0 < cumval) :
    anim_post_schedule cumval lens parse comps =
      ([], some "Multiprocessing run failed in ANIm") := by
  simp [anim_post_schedule, h]

/-- Claim C5 amended-statement witness at two failed jobs and one
healthy pair. -/
theorem scheduler_failure_aborts_before_ingest_witness :
    anim_post_schedule 2 (fun g => g + 3) (fun _ => (4, 1))
      [⟨1, 2, "dcmd", "o.filter"⟩] =
      ([], some "Multiprocessing run failed in ANIm") :=
  scheduler_failure_aborts_before_ingest 2 (fun g => g + 3) (fun _ => (4, 1))
    [⟨1, 2, "dcmd", "o.filter"⟩] (by decide)

/-- Claim C6 counterexample: a parsed artifact with aligned length 0 is
not guarded.  With a batch whose first pair parses to aligned length 0
and whose second pair is healthy, the division at subcommands.py line
618 raises ZeroDivisionError, no per-pair failure is recorded, and the
healthy pair is never ingested — the batch does not continue. -/
theorem zero_aln_aborts_batch_cx :
    ingest_all (fun g => g + 3)
      (fun f => if f == "bad.filter" then (0, 0) else (4, 1))
      [⟨1, 2, "c1", "bad.filter"⟩, ⟨1, 3, "c2", "good.filter"⟩] =
      ([], some "ZeroDivisionError") := by
  have h0 : (((fun f => if f == "bad.filter" then ((0 : Nat), (0 : Nat))
      else (4, 1)) "bad.filter")).1 = 0 := rfl
  have hstep := ingest_step_zero (fun g => g + 3)
    (fun f => if f == "bad.filter" then (0, 0) else (4, 1))
    ⟨1, 2, "c1", "bad.filter"⟩ h0
  simp only [ingest_all, hstep]

/-- Claim C6 as amended: a parsed artifact with aligned length 0 makes
the ingestion loop raise ZeroDivisionError at that pair; the rows
committed for pairs earlier in the batch remain committed, but that pair
and every later pair of the batch are not committed and the invocation
aborts with the exception. -/
theorem zero_aln_zero_division (lens : Nat → Nat) (parse : String → Nat × Nat)
    (pre : List Comparison) (c : Comparison) (post : List Comparison)
    (hpre : (ingest_all lens parse pre).2 = none)
    (hc : (parse c.outfile).1 = 0) :
    ingest_all lens parse (pre ++ c :: post) =
      ((ingest_all lens parse pre).1, some "ZeroDivisionError") := by
  rw [ingest_all_append lens parse pre (c :: post) hpre]
  have hstep := ingest_step_zero lens parse c hc
  simp [ingest_all, hstep]

/-- Claim C6 amended-statement witness: one healthy pair before the
degenerate pair, one healthy pair after it. -/
theorem zero_aln_zero_division_witness :
    ingest_all (fun g => g + 3)
      (fun f => if f == "bad.filter" then (0, 0) else (4, 1))
      ([⟨1, 2, "c1", "good.filter"⟩] ++
        (⟨1, 3, "c2", "bad.filter"⟩ : Comparison) ::
        [⟨2, 3, "c3", "good2.filter"⟩]) =
      ((ingest_all (fun g => g + 3)
        (fun f => if f == "bad.filter" then (0, 0) else (4, 1))
        [⟨1, 2, "c1", "good.filter"⟩]).1, some "ZeroDivisionError") :=
  zero_aln_zero_division (fun g => g + 3)
    (fun f => if f == "bad.filter" then (0, 0) else (4, 1))
    [⟨1, 2, "c1", "good.filter"⟩] ⟨1, 3, "c2", "bad.filter"⟩
    [⟨2, 3, "c3", "good2.filter"⟩] (by decide) rfl

/-- Claim C8: for every ingested unit whose artifact parses to aligned
length L greater than 0 and error count E, with both genome lengths
positive, the committed metrics are exactly identity = 1 - E / L,
coverage of the query = L / lengthOf(query), and coverage of the subject
= L / lengthOf(subject), as computed at subcommands.py lines 612-618. -/
theorem ingest_metrics_formula (lens : Nat → Nat) (parse : String → Nat × Nat)
    (c : Comparison) (al se : Nat)
    (hp : parse c.outfile = (al, se))
    (hal : 0 < al) (hq : 0 < lens c.query_id) (hs : 0 < lens c.subject_id) :
    ingest_step lens parse c =
      Except.ok ⟨c.query_id, c.subject_id, al, se,
        1 - (se : ℚ) / (al : ℚ),
        (al : ℚ) / (lens c.query_id : ℚ),
        (al : ℚ) / (lens c.subject_id : ℚ)⟩ := by
  have hal2 : ((al : ℚ)) ≠ 0 := Nat.cast_ne_zero.mpr hal.ne'
  have hq2 : ((lens c.query_id : ℚ)) ≠ 0 := Nat.cast_ne_zero.mpr hq.ne'
  have hs2 : ((lens c.subject_id : ℚ)) ≠ 0 := Nat.cast_ne_zero.mpr hs.ne'
  simp [ingest_step, hp, pydiv, hal2, hq2, hs2, Except.instMonad, Except.bind]

/-- Claim C8 witness: aligned length 2, one error, genome lengths 4 and
5 give identity one half, query coverage one half, subject coverage two
fifths. -/
theorem ingest_metrics_formula_witness :
    ingest_step (fun g => g + 3) (fun _ => (2, 1)) ⟨1, 2, "dcmd", "o.filter"⟩ =
      Except.ok ⟨1, 2, 2, 1, 1 - ((1 : Nat) : ℚ) / ((2 : Nat) : ℚ),
        ((2 : Nat) : ℚ) / ((4 : Nat) : ℚ), ((2 : Nat) : ℚ) / ((5 : Nat) : ℚ)⟩ :=
  ingest_metrics_formula (fun g => g + 3) (fun _ => (2, 1))
    ⟨1, 2, "dcmd", "o.filter"⟩ 2 1 rfl (by decide) (by decide) (by decide)

lemma executes_inversion {jobs : List JobNode} {ok : JobName → Bool}
    {nm : JobName} (h : Executes jobs ok nm) :
    ∃ j ∈ jobs, j.name = nm ∧ (∀ d ∈ j.deps, Executes jobs ok d) ∧
      (∀ d ∈ j.deps, ok d = true) := by
  cases h with
  | step j hj hexec hok => exact ⟨j, hj, rfl, hexec, hok⟩

/-- Claim C1: a pair of the planned run whose comparison is already
memoized in the store under the (tool, version, params) key the run
queries with is linked to the new run by an add_comparison_link call
(subcommands.py, lines 497-508) and is excluded from the list of
comparisons still to be performed (lines 530-533), so the
job-construction loop builds no align or filter job for it. -/
theorem memoized_pair_skips_jobs_and_links
    (gids : List Nat) (memo : Nat → Nat → Option Nat) (run : Nat)
    (recovery nofilter : Bool) (existing : List String)
    (stem : Nat × Nat → String) (cmds : Nat × Nat → String × String)
    (p : Nat × Nat) (hp : p ∈ combinations2 gids)
    (hm : (memo p.1 p.2).isSome = true) :
    (run, p) ∈ links_added run memo (combinations2 gids) ∧
    ∀ e ∈ (build_jobs recovery nofilter existing stem cmds 0
        (comparisons_to_run memo (combinations2 gids))).built, e.1 ≠ p := by
  constructor
  · exact List.mem_map_of_mem _ (List.mem_filter.mpr ⟨hp, hm⟩)
  · intro e he heq
    have hmem := build_jobs_built_mem recovery nofilter existing stem cmds 0
      (comparisons_to_run memo (combinations2 gids)) e he
    rw [heq] at hmem
    have hnone := (List.mem_filter.mp hmem).2
    rw [Option.isNone_iff_eq_none] at hnone
    rw [hnone] at hm
    exact Bool.noConfusion hm

/-- Claim C1 witness: genomes 1, 2, 3 with the pair (1, 2) memoized; the
pair is linked to run 7 and no job is built for it. -/
theorem memoized_pair_skips_jobs_and_links_witness :
    ((7 : Nat), ((1 : Nat), (2 : Nat))) ∈ links_added 7
        (fun a b => if a == 1 && b == 2 then some 5 else none)
        (combinations2 [1, 2, 3]) ∧
    ∀ e ∈ (build_jobs false false []
        (fun _ => "stem") (fun _ => ("ncmd", "dcmd")) 0
        (comparisons_to_run (fun a b => if a == 1 && b == 2 then some 5 else none)
          (combinations2 [1, 2, 3]))).built, e.1 ≠ (1, 2) :=
  memoized_pair_skips_jobs_and_links [1, 2, 3]
    (fun a b => if a == 1 && b == 2 then some 5 else none) 7 false false []
    (fun _ => "stem") (fun _ => ("ncmd", "dcmd")) (1, 2)
    (by decide) (by decide)

/-- Claim C2: in recovery mode, of the N planned pairs exactly those
whose expected artifact name is present in the output directory are
skipped, so N minus M jobs are appended to the joblist handed to the
scheduler, M is at most N, and all N pairs are appended to the
ingestion (comparisons) list, in order. -/
theorem recovery_job_and_ingest_counts (nofilter : Bool)
    (existing : List String) (stem : Nat × Nat → String)
    (cmds : Nat × Nat → String × String) (i : Nat)
    (pairs : List (Nat × Nat)) :
    (pairs.filter
        (fun p => existing.contains (stem p ++ out_suffix nofilter))).length
      ≤ pairs.length ∧
    (build_jobs true nofilter existing stem cmds i pairs).joblist.length =
      pairs.length - (pairs.filter
        (fun p => existing.contains (stem p ++ out_suffix nofilter))).length ∧
    (build_jobs true nofilter existing stem cmds i pairs).comparisons.map
        (fun c => (c.query_id, c.subject_id)) = pairs := by
  simp only [List.contains, List.elem_eq_mem]
  induction pairs generalizing i with
  | nil => simp [build_jobs]
  | cons p pt ih =>
    obtain ⟨ih1, ih2, ih3⟩ := ih (i + 1)
    by_cases hm : stem p ++ out_suffix nofilter ∈ existing
    · refine ⟨?_, ?_, ?_⟩
      · simp [List.filter_cons, hm]
        omega
      · simp [build_jobs, List.filter_cons, hm, List.contains, List.elem_eq_mem]
        omega
      · simp [build_jobs, hm, ih3, List.contains, List.elem_eq_mem]
    · refine ⟨?_, ?_, ?_⟩
      · simp [List.filter_cons, hm]
        omega
      · simp [build_jobs, List.filter_cons, hm, List.contains, List.elem_eq_mem]
        omega
      · simp [build_jobs, hm, ih3, List.contains, List.elem_eq_mem]

/-- Claim C7: for every pair that must be computed the loop at
subcommands.py lines 573-579 builds exactly two jobs — a NUCmer align
job with no dependencies and a filter job whose single dependency is
that align job — the resulting job graph is acyclic for any input set,
and under the dependency semantics of the scheduler a filter job
executes only if its align job executed and succeeded. -/
theorem pair_jobs_chained_acyclic_gated (recovery nofilter : Bool)
    (existing : List String) (stem : Nat × Nat → String)
    (cmds : Nat × Nat → String × String) (i : Nat)
    (pairs : List (Nat × Nat)) :
    (∀ e ∈ (build_jobs recovery nofilter existing stem cmds i pairs).built,
      e.2.1.name.kind = JobKind.nuc ∧ e.2.2.name.kind = JobKind.filt ∧
      e.2.2.name.idx = e.2.1.name.idx ∧
      e.2.1.deps = [] ∧ e.2.2.deps = [e.2.1.name]) ∧
    Acyclic (all_built
      (build_jobs recovery nofilter existing stem cmds i pairs).built) ∧
    (∀ ok : JobName → Bool,
      ∀ e ∈ (build_jobs recovery nofilter existing stem cmds i pairs).built,
        Executes (all_built
            (build_jobs recovery nofilter existing stem cmds i pairs).built)
          ok e.2.2.name →
        Executes (all_built
            (build_jobs recovery nofilter existing stem cmds i pairs).built)
          ok e.2.1.name ∧ ok e.2.1.name = true) := by
  have hclass := all_built_classify recovery nofilter existing stem cmds i pairs
  refine ⟨?_, acyclic_of_classify hclass, ?_⟩
  · intro e he
    rcases build_jobs_built_shape recovery nofilter existing stem cmds i pairs
      e he with ⟨k, hn, hf⟩
    rw [hn, hf]
    exact ⟨rfl, rfl, rfl, rfl, rfl⟩
  · intro ok e he hex
    rcases build_jobs_built_shape recovery nofilter existing stem cmds i pairs
      e he with ⟨k, hn, hf⟩
    rcases executes_inversion hex with ⟨j, hj, hjname, hexec, hok⟩
    rcases hclass j hj with ⟨hkind, _⟩ | ⟨_, hdeps⟩
    · rw [hjname, hf] at hkind
      simp at hkind
    · have hidx : j.name.idx = k := by rw [hjname, hf]
      have hdep : (⟨k, JobKind.nuc⟩ : JobName) ∈ j.deps := by
        rw [hdeps, hidx]
        exact List.mem_singleton.mpr rfl
      have h1 := hexec _ hdep
      have h2 := hok _ hdep
      rw [hn]
      exact ⟨h1, h2⟩

/-- Claim C7 witness: the single pair (1, 2), not recovered, yields the
align job named (0, nuc) with no dependencies and the filter job named
(0, filt) depending exactly on it. -/
theorem pair_jobs_chained_acyclic_gated_witness :
    (⟨⟨0, JobKind.nuc⟩, "ncmd", []⟩ : JobNode).name.kind = JobKind.nuc ∧
    (⟨⟨0, JobKind.filt⟩, "dcmd", [⟨0, JobKind.nuc⟩]⟩ : JobNode).name.kind =
      JobKind.filt ∧
    (⟨⟨0, JobKind.filt⟩, "dcmd", [⟨0, JobKind.nuc⟩]⟩ : JobNode).name.idx =
      (⟨⟨0, JobKind.nuc⟩, "ncmd", []⟩ : JobNode).name.idx ∧
    (⟨⟨0, JobKind.nuc⟩, "ncmd", []⟩ : JobNode).deps = [] ∧
    (⟨⟨0, JobKind.filt⟩, "dcmd", [⟨0, JobKind.nuc⟩]⟩ : JobNode).deps =
      [(⟨⟨0, JobKind.nuc⟩, "ncmd", []⟩ : JobNode).name] :=
  (pair_jobs_chained_acyclic_gated false false [] (fun _ => "stem")
      (fun _ => ("ncmd", "dcmd")) 0 [(1, 2)]).1
    ((1, 2), ⟨⟨0, JobKind.nuc⟩, "ncmd", []⟩,
      ⟨⟨0, JobKind.filt⟩, "dcmd", [⟨0, JobKind.nuc⟩]⟩)
    (by decide)

end Pyani
